import Mathlib

/-!
Shallow embedding of the resqpy attribute-binding / persistence layer.

Source files embedded:
  * `src/resqpy/olio/attributes.py` — `XmlAttribute`, `HdfAttribute` (namespace `Olio`)
  * `src/resqpy/olio/base.py`       — `BaseResqml` (namespace `Olio`)
  * `src/resqpy/base.py`            — the duplicate revision; where its code differs
    from the olio revision (`XmlAttribute.write`, `HdfAttribute.write`) it is
    embedded under namespace `RBase`.

External collaborators (the tree adapter `rqet = resqpy.olio.xml_et`, the
namespace table `resqpy.olio.xml_namespaces`, the unit collaborator `bwam`,
and the model / array-store adapter) are repository code that is not under
`src/`; they are modelled from the spec, each with a doc comment saying so.

Python values are modelled by the `Value` inductive; machine-level detail
(floats, real XML markup) is outside the claims.  Python exceptions are
modelled by `PyErr` and fallible code returns `Except PyErr _`.
-/

set_option autoImplicit false

namespace Resqpy

/-- Python exceptions raised by this layer. -/
inductive PyErr
  | valueError (msg : String)
  | notImplementedError (msg : String)
  | assertionError
  | keyError
  | typeError
  | attributeError
  deriving DecidableEq, Repr

/-- The `dtype` field of a descriptor: one of `str, bool, int, float, None`. -/
inductive Dtype
  | dstr
  | dbool
  | dint
  | dfloat
  | dnone
  deriving DecidableEq, Repr

/-- An in-memory Python value bound to an object field. -/
inductive Value
  | vStr (s : String)
  | vBool (b : Bool)
  | vInt (n : Int)
  | vNone
  deriving DecidableEq, Repr

/-- Python `str(value)`. -/
def pyStr : Value → String
  | .vStr s => s
  | .vBool true => "True"
  | .vBool false => "False"
  | .vInt n => toString n
  | .vNone => "None"

/-- Python `str.lower()` (ASCII, which covers every text this layer writes). -/
def py_lower (s : String) : String := { data := s.data.map Char.toLower }

def is_space (c : Char) : Bool := c == ' ' || c == '\t' || c == '\n' || c == '\r'

/-- Python `str.strip()`. -/
def py_trim (s : String) : String :=
  { data := ((s.data.dropWhile is_space).reverse.dropWhile is_space).reverse }

/-- Python `s.startswith("deg")` on an already stripped and lowered string. -/
def starts_deg (s : String) : Bool :=
  match s.data with
  | 'd' :: 'e' :: 'g' :: _ => true
  | _ => false

/-- Character membership in a character list (helper for `has_slash`). -/
def char_mem (c : Char) : List Char → Bool
  | [] => false
  | x :: xs => x == c || char_mem c xs

/-- Python `'/' in tag`. -/
def has_slash (s : String) : Bool := char_mem '/' s.data

/-- Helper for `tag_split`: split a character list at every occurrence of `c`. -/
def split_on_char (c : Char) : List Char → List (List Char)
  | [] => [[]]
  | x :: xs =>
    let r := split_on_char c xs
    if x = c then [] :: r
    else
      match r with
      | [] => [[x]]
      | h :: t => (x :: h) :: t

/-- Python `tag.split('/')`. -/
def tag_split (s : String) : List String :=
  (split_on_char '/' s.data).map (fun l => { data := l })

/-- Python truthiness of an optional string: `None` and `""` are falsy. -/
def pyTruthy : Option String → Bool
  | none => false
  | some s => !(s == "")

/-- First-match association-list lookup (models attribute/key lookup). -/
def alist_get {α : Type} (l : List (String × α)) (k : String) : Option α :=
  (l.find? (fun p => p.1 == k)).map Prod.snd

/-- Shadowing insert (models `setattr`: a later binding wins on lookup). -/
def alist_set {α : Type} (l : List (String × α)) (k : String) (v : α) :
    List (String × α) :=
  (k, v) :: l

/-- An XML element, as far as this layer observes it: tag, attributes,
text content and ordered children. -/
structure XmlNode where
  tag : String
  attrib : List (String × String)
  text : Option String
  children : List XmlNode

/-- `SubElement` appends the child at the end of the parent's children. -/
def addChild (n : XmlNode) (c : XmlNode) : XmlNode :=
  { n with children := n.children ++ [c] }

/-- Modelled from the spec: the namespace table `resqpy.olio.xml_namespaces.
curly_namespace` (not under `src/`) maps the known prefix names to namespace
strings; looking up an unknown key — including `None` — raises `KeyError`,
as a Python dict subscript does. -/
def curly_namespace : Option String → Except PyErr String
  | some "resqml2" => .ok "resqml2:"
  | some "eml" => .ok "eml:"
  | some "xsd" => .ok "xsd:"
  | some "xsi" => .ok "xsi:"
  | _ => .error .keyError

/-- Modelled from the spec: tree lookups (`find_nested`) resolve a plain tag
name regardless of the namespace prefix the element was written with. -/
def tag_matches (full t : String) : Bool := full == t || full == "resqml2:" ++ t

def find_child (n : XmlNode) (t : String) : Option XmlNode :=
  n.children.find? (fun c => tag_matches c.tag t)

/-- Modelled from the spec: nested-tag traversal of the tree adapter. -/
def find_nested_node : XmlNode → List String → Option XmlNode
  | n, [] => some n
  | n, t :: ts =>
    match find_child n t with
    | none => none
    | some c => find_nested_node c ts

/-- Modelled from the spec: `find_nested(node, path, dtype) -> value|null`;
casts found text to the descriptor dtype (`boolean` external form is the
lowercase true/false string).  Float parsing lives in the external adapter
and no claim exercises it. -/
def cast_text : Dtype → String → Option Value
  | .dstr, s => some (.vStr s)
  | .dbool, s =>
    if s = "true" then some (.vBool true)
    else if s = "false" then some (.vBool false)
    else none
  | .dint, s => (s.toInt?).map .vInt
  | .dfloat, _ => none
  | .dnone, s => some (.vStr s)

/-- Modelled from the spec: `rqet.find_nested_tags_cast` — walk the tag
path from the node, read the text of the final element, cast to dtype. -/
def find_nested_tags_cast (n : XmlNode) (tags : List String) (d : Dtype) :
    Option Value :=
  match find_nested_node n tags with
  | none => none
  | some m =>
    match m.text with
    | none => none
    | some s => cast_text d s

/-- Modelled from the spec: `rqet.find_tag(root, tag, must_exist)` — locate a
direct child; when absent it fails iff `must_exist` (MissingRequiredField). -/
def find_tag (n : XmlNode) (t : String) (must_exist : Bool) :
    Except PyErr (Option XmlNode) :=
  match find_child n t with
  | some c => .ok (some c)
  | none => if must_exist then .error .assertionError else .ok none

/-- Modelled from the spec: `rqet.node_type(node) -> encoding_tag`; a `None`
node yields `None`.  The declared storage encoding is read off the node. -/
def node_type : Option XmlNode → Option String
  | none => none
  | some n => alist_get n.attrib "xsi:type"

/-- Modelled from the spec: `rqet.uuid_for_part_root` = `identity_for_node
(node) -> identity|null`, reading the node's `uuid` attribute. -/
def uuid_for_part_root (n : XmlNode) : Option String :=
  alist_get n.attrib "uuid"

/-- Modelled from the spec: `bwam.rq_length_unit` = `canonical_length_unit
(value) -> string`.  The normalization table is external and no claim
depends on it; modelled as the value's textual form. -/
def rq_length_unit (v : Value) : String := pyStr v

/-- The shared `BaseAttribute` dataclass of both revisions. -/
structure BaseAttribute where
  key : String
  tag : String
  dtype : Dtype
  xml_ns : Option String := none
  xml_type : Option String := none
  required : Bool := true
  writeable : Bool := true
  deriving DecidableEq, Repr

/-- A declared descriptor: the Tree (Xml) or Array (Hdf) variant. -/
inductive Attr
  | xmlAttr (a : BaseAttribute)
  | hdfAttr (a : BaseAttribute)

def Attr.hdfPart : Attr → Option BaseAttribute
  | .hdfAttr a => some a
  | .xmlAttr _ => none

/-- A `BaseResqml` object: identity key, citation metadata and the
dynamically bound fields named by descriptor keys. -/
structure Obj where
  uuid : Option String
  title : Option String
  originator : Option String
  fields : List (String × Value)

/-- The type-specific casting block shared verbatim by both revisions'
tree-attribute write (`boolean` / `LengthUom` / `PlaneAngleUom` / default),
followed by the final `str(value)`. -/
def encode_value (a : BaseAttribute) (v : Value) : String :=
  if a.xml_type == some "boolean" then py_lower (pyStr v)
  else if a.xml_type == some "LengthUom" then rq_length_unit v
  else if a.xml_type == some "PlaneAngleUom" then
    (if starts_deg (py_lower (py_trim (pyStr v))) then "dega" else "rad")
  else pyStr v

namespace Olio

/-- `src/resqpy/olio/attributes.py` `XmlAttribute.load` (lines 48-62); the
`src/resqpy/base.py` revision's `XmlAttribute.load` (lines 43-55) is
token-identical.  `root` is the object's resolved tree node (`obj.root`);
the returned field list is the object's fields after `setattr`. -/
def XmlAttribute.load (a : BaseAttribute) (root : XmlNode)
    (fields : List (String × Value)) : Except PyErr (List (String × Value)) :=
  let value := find_nested_tags_cast root (tag_split a.tag) a.dtype
  match value with
  | none =>
    if a.required then
      .error (.valueError ("Could not load required attribute " ++ a.key))
    else .ok (alist_set fields a.key .vNone)
  | some v => .ok (alist_set fields a.key v)

/-- `src/resqpy/olio/attributes.py` `XmlAttribute.write_xml` (lines 64-95).
Error order follows the Python evaluation order: writeable guard, nested-tag
guard, `getattr`, then `ns[self.xml_ns] + self.xml_type` inside `.set`
(KeyError on an unknown/None namespace key, TypeError on a None xml_type).
Note there is no `xml_type is None` early return in this revision. -/
def XmlAttribute.write_xml (a : BaseAttribute) (node : XmlNode)
    (fields : List (String × Value)) : Except PyErr XmlNode :=
  if !a.writeable then .ok node
  else if has_slash a.tag then
    .error (.notImplementedError "XmlAttribute cannot currently write nested attributes")
  else
    match alist_get fields a.key with
    | none => .error .attributeError
    | some v =>
      match curly_namespace a.xml_ns with
      | .error e => .error e
      | .ok nsv =>
        match a.xml_type with
        | none => .error .typeError
        | some xt =>
          .ok (addChild node
            { tag := "resqml2:" ++ a.tag
              attrib := [("xsi:type", nsv ++ xt)]
              text := some (encode_value a v)
              children := [] })

/-- `src/resqpy/olio/attributes.py` `HdfAttribute.load` (lines 108-122).
`h5_uuid_and_path_for_node` and `h5_array_element` are the array-store
adapter operations (`resolve_array_key` / `fetch_cached`, modelled from the
spec and passed as arguments).  The function returns the fetched array (or
`none`) and never binds `object[key]` itself. -/
def HdfAttribute.load (a : BaseAttribute) (root : XmlNode)
    (h5_uuid_and_path_for_node : XmlNode → Option (String × String))
    (h5_array_element : String × String → Dtype → Option Value) :
    Except PyErr (Option Value) :=
  match find_tag root a.tag a.required with
  | .error e => .error e
  | .ok array_node =>
    let nt := node_type array_node
    if nt == some "DoubleHdf5Array" || nt == some "IntegerHdf5Array"
        || nt == some "Point3dHdf5Array" then
      match array_node with
      | none => .error .assertionError
      | some n =>
        match h5_uuid_and_path_for_node n with
        | none => .ok none
        | some kp => .ok (h5_array_element kp a.dtype)
    else .error .assertionError

/-- Modelled from the spec: `model.create_hdf5_dataset_ref` =
`create_dataset_reference(store_id, owner_identity, tag, at_node)`; records
the linkage under the Values node. -/
def dataset_ref_node (obj_uuid : Option String) (tag : String) : XmlNode :=
  { tag := "eml:HdfProxy"
    attrib := [("object_uuid", match obj_uuid with | none => "None" | some u => u),
               ("path", tag)]
    text := none
    children := [] }

/-- `src/resqpy/olio/attributes.py` `HdfAttribute.write_xml` (lines
124-146): indirection node at `tag`, nested Values node, dataset reference.
`rqet.null_xml_text` is modelled as the empty text. -/
def HdfAttribute.write_xml (a : BaseAttribute) (node : XmlNode)
    (obj_uuid : Option String) : Except PyErr XmlNode :=
  if !a.writeable then .ok node
  else
    match curly_namespace a.xml_ns with
    | .error e => .error e
    | .ok nsv =>
      match a.xml_type with
      | none => .error .typeError
      | some xt =>
        .ok (addChild node
          { tag := "resqml2:" ++ a.tag
            attrib := [("xsi:type", nsv ++ xt)]
            text := some ""
            children := [{ tag := "resqml2:Values"
                           attrib := [("xsi:type", "resqml2:Hdf5Dataset")]
                           text := some ""
                           children := [dataset_ref_node obj_uuid a.tag] }] })

/-- `src/resqpy/olio/base.py` `BaseResqml.__eq__` (lines 141-143). -/
def BaseResqml.eq (a b : Obj) : Bool := a.uuid.isSome && a.uuid == b.uuid

/-- `src/resqpy/olio/base.py` `BaseResqml.__ne__` (lines 145-147). -/
def BaseResqml.ne (a b : Obj) : Bool := !(BaseResqml.eq a b)

/-- `src/resqpy/olio/base.py` `BaseResqml.root` setter (lines 71-77):
derive the identity from the node; refuse to set a null identity. -/
def BaseResqml.root_set (obj : Obj) (value : XmlNode) : Except PyErr Obj :=
  match uuid_for_part_root value with
  | none => .error (.valueError "Cannot set uuid to be None")
  | some u => .ok { obj with uuid := some u }

/-- The per-descriptor dispatch of `attr.write_xml(obj=self)` inside
`create_xml`. -/
def attr_write (x : Attr) (node : XmlNode) (fields : List (String × Value))
    (obj_uuid : Option String) : Except PyErr XmlNode :=
  match x with
  | .xmlAttr a => XmlAttribute.write_xml a node fields
  | .hdfAttr a => HdfAttribute.write_xml a node obj_uuid

/-- The `for attr in self._attrs: attr.write_xml(obj=self)` loop: the node
is mutated in place in Python, so the updated node threads left to right. -/
def write_attrs : List Attr → XmlNode → List (String × Value) → Option String →
    Except PyErr XmlNode
  | [], node, _, _ => .ok node
  | x :: rest, node, fields, u =>
    match attr_write x node fields u with
    | .error e => .error e
    | .ok n2 => write_attrs rest n2 fields u

/-- Modelled from the spec: `model.create_citation` = `write_metadata_block
(node, title, originator)` — the citation child holding Title/Originator. -/
def citation_node (t o : Option String) : XmlNode :=
  { tag := "Citation"
    attrib := []
    text := none
    children := [{ tag := "Title", attrib := [], text := t, children := [] },
                 { tag := "Originator", attrib := [], text := o, children := [] }] }

def create_citation (root : XmlNode) (t o : Option String) : XmlNode :=
  addChild root (citation_node t o)

/-- `src/resqpy/olio/base.py` `BaseResqml.create_xml` (lines 93-125).
`assert self.uuid is not None`; the defaulted `ext_uuid` is never used by
the remainder of the olio `create_xml`; `model.new_obj_node` (modelled from
the spec: `new_node(schema_category)`) allocates a fresh element whose
`uuid` attribute is then bound; `self.root = node` goes through the root
setter; `assert self.root is not None` holds because the adapter resolves
the freshly identity-bound node; citation fallback uses Python truthiness;
then every descriptor's write runs in declaration order. -/
def BaseResqml.create_xml (attrs : List Attr) (resqml_obj : String) (obj : Obj)
    (title originator ext_uuid : Option String) : Except PyErr (Obj × XmlNode) :=
  match obj.uuid with
  | none => .error .assertionError
  | some u =>
    let _ := ext_uuid
    let node : XmlNode :=
      { tag := resqml_obj, attrib := [("uuid", u)], text := none, children := [] }
    match BaseResqml.root_set obj node with
    | .error e => .error e
    | .ok obj1 =>
      let t := if pyTruthy title then title else obj1.title
      let o := if pyTruthy originator then originator else obj1.originator
      let obj2 := { obj1 with title := t, originator := o }
      let node2 := create_citation node t o
      match write_attrs attrs node2 obj2.fields obj2.uuid with
      | .error e => .error e
      | .ok node3 => .ok (obj2, node3)

/-- The per-attribute registration loop of `write_hdf5`: `getattr(self,
attr.key)` then `h5_reg.register_dataset(self.uuid, attr.tag, array,
dtype=attr.dtype)` (the register call modelled from the spec as batch
accumulation keyed by identity, tag and dtype). -/
def register_all (u : Option String) (fields : List (String × Value)) :
    List BaseAttribute → Except PyErr (List (Option String × String × Value × Dtype))
  | [] => .ok []
  | a :: rest =>
    match alist_get fields a.key with
    | none => .error .attributeError
    | some arr =>
      match register_all u fields rest with
      | .error e => .error e
      | .ok l => .ok ((u, a.tag, arr, a.dtype) :: l)

/-- `src/resqpy/olio/base.py` `BaseResqml.write_hdf5` (lines 127-139): the
result is the registered batch plus the single `h5_reg.write(file, mode)`
call (modelled from the spec as one commit event carrying file and mode). -/
def BaseResqml.write_hdf5 (attrs : List Attr) (obj : Obj)
    (file_name : Option String) (mode : String) :
    Except PyErr (List (Option String × String × Value × Dtype) × Option String × String) :=
  let hdf_attrs := attrs.filterMap Attr.hdfPart
  if hdf_attrs.length = 0 then
    .error (.valueError "Class has no HDF5 attributes to write")
  else
    match register_all obj.uuid obj.fields hdf_attrs with
    | .error e => .error e
    | .ok batch => .ok (batch, file_name, mode)

end Olio

namespace RBase

/-- `src/resqpy/base.py` `XmlAttribute.write` (lines 57-83).  This revision
returns early when `xml_type` is unset but has no nested-tag guard. -/
def XmlAttribute.write (a : BaseAttribute) (node : XmlNode)
    (fields : List (String × Value)) : Except PyErr XmlNode :=
  if !a.writeable then .ok node
  else
    match a.xml_type with
    | none => .ok node
    | some xt =>
      match alist_get fields a.key with
      | none => .error .attributeError
      | some v =>
        match curly_namespace a.xml_ns with
        | .error e => .error e
        | .ok nsv =>
          .ok (addChild node
            { tag := "resqml2:" ++ a.tag
              attrib := [("xsi:type", nsv ++ xt)]
              text := some (encode_value a v)
              children := [] })

end RBase

/-! ### Concrete sample data used by witnesses and counterexamples -/

def node0 : XmlNode := { tag := "root", attrib := [], text := none, children := [] }

def fields0 : List (String × Value) := [("k", Value.vStr "v")]

/-- A writeable tree descriptor whose `xml_type` is unset. -/
def a2c : BaseAttribute :=
  { key := "k", tag := "t", dtype := Dtype.dstr, xml_ns := none, xml_type := none,
    required := true, writeable := true }

/-- The same descriptor with `writeable := false`. -/
def aNW : BaseAttribute := { a2c with writeable := false }

/-- A writeable tree descriptor with a nested (slash) tag and unset `xml_type`. -/
def a4c : BaseAttribute :=
  { key := "k", tag := "foo/bar", dtype := Dtype.dstr, xml_ns := none, xml_type := none,
    required := true, writeable := true }

/-- An object with a null identity key. -/
def oN : Obj := { uuid := none, title := none, originator := none, fields := [] }

/-- An object holding a bound identity, a title and a true boolean field. -/
def objW : Obj :=
  { uuid := some "u1", title := some "T0", originator := none,
    fields := [("flag", Value.vBool true)] }

/-- A root holding the nested structure `A/B` with text `seven`. -/
def root3 : XmlNode :=
  { tag := "root", attrib := [], text := none,
    children := [{ tag := "A", attrib := [], text := none,
                   children := [{ tag := "B", attrib := [], text := some "seven",
                                  children := [] }] }] }

/-- A required nested tree descriptor resolving `A/B`. -/
def a3 : BaseAttribute :=
  { key := "kv", tag := "A/B", dtype := Dtype.dstr, xml_ns := none, xml_type := none,
    required := true, writeable := true }

/-- A required nested tree descriptor whose path `A/C` is absent. -/
def a3m : BaseAttribute :=
  { key := "kv", tag := "A/C", dtype := Dtype.dstr, xml_ns := none, xml_type := none,
    required := true, writeable := true }

/-- An optional (required false) array descriptor with a double encoding. -/
def hdfA6 : BaseAttribute :=
  { key := "values", tag := "Vals", dtype := Dtype.dfloat, xml_ns := some "resqml2",
    xml_type := some "DoubleHdf5Array", required := false, writeable := true }

/-- A root whose `Vals` child declares the recognized double-array encoding. -/
def node6 : XmlNode :=
  { tag := "root", attrib := [], text := none,
    children := [{ tag := "Vals", attrib := [("xsi:type", "DoubleHdf5Array")],
                   text := none, children := [] }] }

/-- An array descriptor used by the `write_hdf5` witness. -/
def aH7 : BaseAttribute :=
  { key := "arr", tag := "Data", dtype := Dtype.dint, xml_ns := some "resqml2",
    xml_type := some "IntegerHdf5Array", required := true, writeable := true }

/-- An object with a bound identity and one in-memory array field. -/
def objH7 : Obj :=
  { uuid := some "u2", title := none, originator := none,
    fields := [("arr", Value.vInt 3)] }

/-- A writeable boolean tree descriptor with a resolvable namespace. -/
def a8 : BaseAttribute :=
  { key := "flag", tag := "IsSealed", dtype := Dtype.dbool, xml_ns := some "xsd",
    xml_type := some "boolean", required := true, writeable := true }

/-- Fields binding `flag` to the in-memory true value. -/
def fields8 : List (String × Value) := [("flag", Value.vBool true)]

/-- A node carrying a `uuid` attribute. -/
def nodeU : XmlNode :=
  { tag := "x", attrib := [("uuid", "u9")], text := none, children := [] }

/-! ### Helper predicates and lemmas about the write path -/

/-- A descriptor for which the tree-attribute write succeeds and appends one
child: the Xml variant, writeable, slash-free tag, a bound field, a
resolvable namespace and a set xml_type. -/
def good_xml_attr (fields : List (String × Value)) : Attr → Prop
  | .xmlAttr a => a.writeable = true ∧ has_slash a.tag = false ∧
      (∃ v, alist_get fields a.key = some v) ∧
      (∃ s, curly_namespace a.xml_ns = Except.ok s) ∧
      (∃ t, a.xml_type = some t)
  | .hdfAttr _ => False

/-- The child node a successful tree-attribute write appends. -/
def xml_child (fields : List (String × Value)) : Attr → XmlNode
  | .xmlAttr a =>
    { tag := "resqml2:" ++ a.tag
      attrib := [("xsi:type",
        (match curly_namespace a.xml_ns with
         | .ok s => s
         | .error _ => "") ++ a.xml_type.getD "")]
      text := some (encode_value a ((alist_get fields a.key).getD .vNone))
      children := [] }
  | .hdfAttr _ => { tag := "", attrib := [], text := none, children := [] }

/-- A character absent from a list splits it into a single piece. -/
theorem split_on_char_no_occur (c : Char) :
    ∀ l : List Char, char_mem c l = false → split_on_char c l = [l] := by
  intro l
  induction l with
  | nil => intro _; rfl
  | cons x xs ih =>
    intro h
    simp only [char_mem, Bool.or_eq_false_iff] at h
    have hne : ¬(x = c) := by
      intro he
      rw [he] at h
      simp at h
    unfold split_on_char
    rw [ih h.2, if_neg hne]

/-- A slash-free tag splits into the singleton path. -/
theorem tag_split_no_slash (s : String) (h : has_slash s = false) :
    tag_split s = [s] := by
  unfold tag_split
  rw [split_on_char_no_occur '/' s.data h]
  rfl

/-- `find?` skips over a block with no match. -/
theorem find_append_none {α : Type} (p : α → Bool) :
    ∀ l1 l2 : List α, l1.find? p = none → (l1 ++ l2).find? p = l2.find? p := by
  intro l1
  induction l1 with
  | nil => intro l2 _; rfl
  | cons x xs ih =>
    intro l2 h
    cases hp : p x with
    | true =>
      rw [List.find?_cons_of_pos xs hp] at h
      simp at h
    | false =>
      have hneg : ¬p x = true := by simp [hp]
      rw [List.find?_cons_of_neg xs hneg] at h
      rw [List.cons_append, List.find?_cons_of_neg (xs ++ l2) hneg]
      exact ih l2 h

/-- A successful tree-attribute write under the preconditions appends
exactly `xml_child`. -/
theorem write_xml_good (a : BaseAttribute) (node : XmlNode)
    (fields : List (String × Value))
    (hw : a.writeable = true) (hs : has_slash a.tag = false)
    (v : Value) (hv : alist_get fields a.key = some v)
    (s : String) (hns : curly_namespace a.xml_ns = Except.ok s)
    (t : String) (ht : a.xml_type = some t) :
    Olio.XmlAttribute.write_xml a node fields =
      Except.ok (addChild node (xml_child fields (Attr.xmlAttr a))) := by
  simp [Olio.XmlAttribute.write_xml, xml_child, hw, hs, hv, hns, ht]

/-- Any successful per-attribute write leaves tag, attributes and text of
the parent unchanged and only appends children. -/
theorem attr_write_shape (x : Attr) (node : XmlNode)
    (fields : List (String × Value)) (u : Option String) (n2 : XmlNode)
    (h : Olio.attr_write x node fields u = Except.ok n2) :
    n2.tag = node.tag ∧ n2.attrib = node.attrib ∧ n2.text = node.text ∧
      ∃ ext, n2.children = node.children ++ ext := by
  cases x with
  | xmlAttr a =>
    unfold Olio.attr_write Olio.XmlAttribute.write_xml at h
    cases hw : a.writeable with
    | false =>
      simp only [hw, Bool.not_false, if_true, Except.ok.injEq] at h
      subst h
      exact ⟨rfl, rfl, rfl, ⟨[], by simp⟩⟩
    | true =>
      simp only [hw, Bool.not_true, Bool.false_eq_true, if_false] at h
      cases hs : has_slash a.tag with
      | true => simp [hs] at h
      | false =>
        simp only [hs, Bool.false_eq_true, if_false] at h
        cases hg : alist_get fields a.key with
        | none => rw [hg] at h; simp at h
        | some v =>
          rw [hg] at h
          cases hns : curly_namespace a.xml_ns with
          | error e => rw [hns] at h; simp at h
          | ok nsv =>
            rw [hns] at h
            cases ht : a.xml_type with
            | none => rw [ht] at h; simp at h
            | some xt =>
              rw [ht] at h
              simp only [Except.ok.injEq] at h
              subst h
              exact ⟨rfl, rfl, rfl, ⟨_, rfl⟩⟩
  | hdfAttr a =>
    unfold Olio.attr_write Olio.HdfAttribute.write_xml at h
    cases hw : a.writeable with
    | false =>
      simp only [hw, Bool.not_false, if_true, Except.ok.injEq] at h
      subst h
      exact ⟨rfl, rfl, rfl, ⟨[], by simp⟩⟩
    | true =>
      simp only [hw, Bool.not_true, Bool.false_eq_true, if_false] at h
      cases hns : curly_namespace a.xml_ns with
      | error e => rw [hns] at h; simp at h
      | ok nsv =>
        rw [hns] at h
        cases ht : a.xml_type with
        | none => rw [ht] at h; simp at h
        | some xt =>
          rw [ht] at h
          simp only [Except.ok.injEq] at h
          subst h
          exact ⟨rfl, rfl, rfl, ⟨_, rfl⟩⟩

/-- The write loop leaves tag, attributes and text of the node unchanged
and only appends children. -/
theorem write_attrs_shape (fields : List (String × Value)) (u : Option String) :
    ∀ (attrs : List Attr) (node n2 : XmlNode),
      Olio.write_attrs attrs node fields u = Except.ok n2 →
      n2.tag = node.tag ∧ n2.attrib = node.attrib ∧ n2.text = node.text ∧
        ∃ ext, n2.children = node.children ++ ext := by
  intro attrs
  induction attrs with
  | nil =>
    intro node n2 h
    simp only [Olio.write_attrs, Except.ok.injEq] at h
    subst h
    exact ⟨rfl, rfl, rfl, ⟨[], by simp⟩⟩
  | cons x rest ih =>
    intro node n2 h
    unfold Olio.write_attrs at h
    cases hw : Olio.attr_write x node fields u with
    | error e => rw [hw] at h; simp at h
    | ok nmid =>
      rw [hw] at h
      obtain ⟨h1, h2, h3, ext1, hc1⟩ := attr_write_shape x node fields u nmid hw
      obtain ⟨g1, g2, g3, ext2, gc2⟩ := ih nmid n2 h
      exact ⟨g1.trans h1, g2.trans h2, g3.trans h3,
        ⟨ext1 ++ ext2, by rw [gc2, hc1, List.append_assoc]⟩⟩

/-- When every declared descriptor satisfies the write preconditions, the
write loop appends exactly one encoded child per descriptor, in
declaration order. -/
theorem write_attrs_good (fields : List (String × Value)) (u : Option String) :
    ∀ (attrs : List Attr) (node : XmlNode),
      (∀ x ∈ attrs, good_xml_attr fields x) →
      Olio.write_attrs attrs node fields u =
        Except.ok { node with children := node.children ++ attrs.map (xml_child fields) } := by
  intro attrs
  induction attrs with
  | nil =>
    intro node _
    obtain ⟨tg, ab, tx, ch⟩ := node
    simp only [Olio.write_attrs, List.map_nil, List.append_nil]
  | cons x rest ih =>
    intro node hgood
    have hx := hgood x (List.mem_cons_self x rest)
    cases x with
    | hdfAttr a => exact absurd hx (by simp [good_xml_attr])
    | xmlAttr a =>
      obtain ⟨hw, hs, ⟨v, hv⟩, ⟨s, hns⟩, ⟨t, ht⟩⟩ := hx
      have hwx := write_xml_good a node fields hw hs v hv s hns t ht
      simp only [Olio.write_attrs, Olio.attr_write, hwx]
      rw [ih (addChild node (xml_child fields (Attr.xmlAttr a)))
          (fun y hy => hgood y (List.mem_cons_of_mem (Attr.xmlAttr a) hy))]
      simp [addChild]

/-- `create_xml` raises the identity assertion when the uuid is unset. -/
theorem create_xml_none (attrs : List Attr) (r : String) (obj : Obj)
    (hu : obj.uuid = none) (t o e : Option String) :
    Olio.BaseResqml.create_xml attrs r obj t o e = Except.error PyErr.assertionError := by
  obtain ⟨uu, tt, oo, ff⟩ := obj
  simp only [Obj.uuid] at hu
  subst hu
  rfl

/-- Unfolding of `create_xml` when the identity is bound: everything up to
the write loop computes, and the result threads the loop's outcome. -/
theorem create_xml_some (attrs : List Attr) (r : String) (obj : Obj)
    (u : String) (hu : obj.uuid = some u) (t o e : Option String) :
    Olio.BaseResqml.create_xml attrs r obj t o e =
      (match Olio.write_attrs attrs
          (Olio.create_citation
            { tag := r, attrib := [("uuid", u)], text := none, children := [] }
            (if pyTruthy t then t else obj.title)
            (if pyTruthy o then o else obj.originator))
          obj.fields (some u) with
       | .error e2 => .error e2
       | .ok node3 =>
         .ok ({ obj with uuid := some u,
                         title := if pyTruthy t then t else obj.title,
                         originator := if pyTruthy o then o else obj.originator },
              node3)) := by
  obtain ⟨uu, tt, oo, ff⟩ := obj
  simp only [Obj.uuid] at hu
  subst hu
  rfl

/-- Destructuring a successful `create_xml`: the returned object is the
input with the identity kept and the fallback title/originator applied, and
the returned node is the write loop's output. -/
theorem create_xml_ok_dest (attrs : List Attr) (r : String) (obj : Obj)
    (u : String) (hu : obj.uuid = some u) (t o e : Option String)
    (res : Obj × XmlNode)
    (h : Olio.BaseResqml.create_xml attrs r obj t o e = Except.ok res) :
    res.1 = { obj with uuid := some u,
                       title := if pyTruthy t then t else obj.title,
                       originator := if pyTruthy o then o else obj.originator } ∧
    Olio.write_attrs attrs
        (Olio.create_citation
          { tag := r, attrib := [("uuid", u)], text := none, children := [] }
          (if pyTruthy t then t else obj.title)
          (if pyTruthy o then o else obj.originator))
        obj.fields (some u) = Except.ok res.2 := by
  rw [create_xml_some attrs r obj u hu t o e] at h
  cases hwa : Olio.write_attrs attrs
      (Olio.create_citation
        { tag := r, attrib := [("uuid", u)], text := none, children := [] }
        (if pyTruthy t then t else obj.title)
        (if pyTruthy o then o else obj.originator))
      obj.fields (some u) with
  | error e2 => rw [hwa] at h; simp at h
  | ok node3 =>
    rw [hwa] at h
    simp only [Except.ok.injEq] at h
    rw [← h]
    exact ⟨rfl, rfl⟩

/-! ### Claims -/

/-- Claim C1: two Persistable Objects are equal iff both have a non-null
uuid and the uuids agree; an object whose uuid is null is equal to nothing,
including another null-uuid object; and `__ne__` is the exact negation of
`__eq__`. -/
theorem c1_eq_iff (a b : Obj) :
    (Olio.BaseResqml.eq a b = true ↔ ∃ u, a.uuid = some u ∧ b.uuid = some u) ∧
    (a.uuid = none ∨ b.uuid = none → Olio.BaseResqml.eq a b = false) ∧
    Olio.BaseResqml.ne a b = !(Olio.BaseResqml.eq a b) := by
  refine ⟨?_, ?_, rfl⟩
  · cases ha : a.uuid with
    | none => simp [Olio.BaseResqml.eq, ha]
    | some u =>
      cases hb : b.uuid with
      | none => simp [Olio.BaseResqml.eq, ha, hb]
      | some v =>
        simp only [Olio.BaseResqml.eq, ha, hb, Option.isSome_some, Bool.true_and,
          beq_iff_eq, Option.some.injEq]
        constructor
        · intro h
          exact ⟨u, rfl, h.symm⟩
        · rintro ⟨w, hu, hv⟩
          exact hu.trans hv.symm
  · rintro (h | h) <;> cases ha : a.uuid <;>
      simp [Olio.BaseResqml.eq, h, ha]

/-- Witness for C1: a null-uuid object is not equal to an object with a
bound uuid. -/
theorem c1_eq_iff_witness : Olio.BaseResqml.eq oN objW = false :=
  (c1_eq_iff oN objW).2.1 (Or.inl rfl)

/-- Claim C2 counterexample: for the olio revision's `write_xml`, a
writeable descriptor with unset `xml_type` is NOT a no-op — the call raises
(the namespace lookup `ns[None]` fails) instead of leaving the tree alone. -/
theorem c2_counterexample :
    Olio.XmlAttribute.write_xml a2c node0 fields0 = Except.error PyErr.keyError ∧
    a2c.writeable = true ∧ a2c.xml_type = none :=
  ⟨rfl, rfl, rfl⟩

/-- Claim C2 (amended): write is a no-op when `writeable` is false in both
revisions; in the `resqpy.base` revision it is also a no-op when `xml_type`
is unset and only otherwise encodes and creates a child node; the olio
revision's `write_xml` has no `xml_type` guard — with `writeable` true and
`xml_type` unset it raises an error instead of being a no-op. -/
theorem c2_amended (a : BaseAttribute) (node : XmlNode)
    (fields : List (String × Value)) :
    (a.writeable = false →
      Olio.XmlAttribute.write_xml a node fields = Except.ok node ∧
      RBase.XmlAttribute.write a node fields = Except.ok node) ∧
    (a.xml_type = none → RBase.XmlAttribute.write a node fields = Except.ok node) ∧
    (a.writeable = true → a.xml_type = none →
      ∃ e, Olio.XmlAttribute.write_xml a node fields = Except.error e) ∧
    (∀ xt v nsv, a.writeable = true → a.xml_type = some xt →
      alist_get fields a.key = some v → curly_namespace a.xml_ns = Except.ok nsv →
      RBase.XmlAttribute.write a node fields =
        Except.ok (addChild node
          { tag := "resqml2:" ++ a.tag
            attrib := [("xsi:type", nsv ++ xt)]
            text := some (encode_value a v)
            children := [] })) := by
  refine ⟨?_, ?_, ?_, ?_⟩
  · intro hw
    constructor <;> simp [Olio.XmlAttribute.write_xml, RBase.XmlAttribute.write, hw]
  · intro ht
    unfold RBase.XmlAttribute.write
    cases hw : a.writeable <;> simp [hw, ht]
  · intro hw ht
    unfold Olio.XmlAttribute.write_xml
    simp only [hw, Bool.not_true, Bool.false_eq_true, if_false]
    cases hs : has_slash a.tag
    · simp only [Bool.false_eq_true, if_false]
      cases hg : alist_get fields a.key
      · exact ⟨_, rfl⟩
      · cases hns : curly_namespace a.xml_ns
        · exact ⟨_, rfl⟩
        · simp [ht]
    · simp
  · intro xt v nsv hw ht hg hns
    simp [RBase.XmlAttribute.write, hw, ht, hg, hns]

/-- Witness for the amended C2: the non-writeable no-op and the olio
raise-on-unset-xml-type behavior at concrete inputs. -/
theorem c2_amended_witness :
    (Olio.XmlAttribute.write_xml aNW node0 fields0 = Except.ok node0 ∧
      RBase.XmlAttribute.write aNW node0 fields0 = Except.ok node0) ∧
    (∃ e, Olio.XmlAttribute.write_xml a2c node0 fields0 = Except.error e) :=
  ⟨(c2_amended aNW node0 fields0).1 rfl,
   (c2_amended a2c node0 fields0).2.2.1 rfl rfl⟩

/-- Claim C3: `load` resolves `tag` as a slash-separated nested path from
the object's resolved tree node and casts the found text to `dtype`; if the
value is not found and `required` is true it raises a ValueError naming the
descriptor and binds nothing; otherwise it binds the cast value (or the
absent sentinel `None`) to `object[key]`. -/
theorem c3_load_spec (a : BaseAttribute) (root : XmlNode)
    (fields : List (String × Value)) :
    (a.required = true →
      find_nested_tags_cast root (tag_split a.tag) a.dtype = none →
      Olio.XmlAttribute.load a root fields =
        Except.error (PyErr.valueError ("Could not load required attribute " ++ a.key))) ∧
    (∀ v, find_nested_tags_cast root (tag_split a.tag) a.dtype = some v →
      Olio.XmlAttribute.load a root fields = Except.ok (alist_set fields a.key v)) ∧
    (a.required = false →
      find_nested_tags_cast root (tag_split a.tag) a.dtype = none →
      Olio.XmlAttribute.load a root fields =
        Except.ok (alist_set fields a.key Value.vNone)) := by
  refine ⟨fun h1 h2 => ?_, fun v h2 => ?_, fun h1 h2 => ?_⟩
  · simp [Olio.XmlAttribute.load, h1, h2]
  · simp [Olio.XmlAttribute.load, h2]
  · simp [Olio.XmlAttribute.load, h1, h2]

/-- Witness for C3: the nested path `A/B` loads and binds its text, and the
absent required path `A/C` raises the naming error. -/
theorem c3_load_spec_witness :
    Olio.XmlAttribute.load a3 root3 [] =
      Except.ok [("kv", Value.vStr "seven")] ∧
    Olio.XmlAttribute.load a3m root3 [] =
      Except.error (PyErr.valueError "Could not load required attribute kv") :=
  ⟨(c3_load_spec a3 root3 []).2.1 (Value.vStr "seven") rfl,
   (c3_load_spec a3m root3 []).1 rfl rfl⟩

/-- Claim C4 counterexample: the `resqpy.base` revision's `write` has no
nested-tag guard — with a slashed tag, `writeable` true and `xml_type`
unset it silently succeeds (no NestedWriteUnsupported error). -/
theorem c4_counterexample :
    RBase.XmlAttribute.write a4c node0 fields0 = Except.ok node0 ∧
    has_slash a4c.tag = true ∧ a4c.writeable = true :=
  ⟨rfl, rfl, rfl⟩

/-- Claim C4 (amended): in the olio revision's `write_xml`, every writeable
descriptor whose tag contains a path separator fails with
NestedWriteUnsupported (NotImplementedError) and creates no child node;
the `resqpy.base` revision's `write` has no such guard (with `xml_type`
unset it is a silent no-op). -/
theorem c4_amended (a : BaseAttribute) (node : XmlNode)
    (fields : List (String × Value)) :
    (has_slash a.tag = true → a.writeable = true →
      Olio.XmlAttribute.write_xml a node fields =
        Except.error
          (PyErr.notImplementedError
            "XmlAttribute cannot currently write nested attributes")) ∧
    (a.xml_type = none → RBase.XmlAttribute.write a node fields = Except.ok node) := by
  constructor
  · intro hs hw
    simp [Olio.XmlAttribute.write_xml, hs, hw]
  · intro ht
    unfold RBase.XmlAttribute.write
    cases hw : a.writeable <;> simp [hw, ht]

/-- Claim C6 (code-bug evidence): when the array node exists with a
recognized encoding but no array-store key is resolvable, `HdfAttribute.
load` is the silent no-op the claim describes; but when the node is ABSENT
and the descriptor is not required, the load raises the storage-encoding
assertion (because `node_type(None)` is not among the recognized encodings)
instead of being a no-op. -/
theorem c6_absent_optional_array_raises :
    Olio.HdfAttribute.load hdfA6 node6 (fun _ => none) (fun _ _ => none) =
      Except.ok none ∧
    Olio.HdfAttribute.load hdfA6 node0 (fun _ => none) (fun _ _ => none) =
      Except.error PyErr.assertionError :=
  ⟨rfl, rfl⟩

/-- Every successful `register_all` result is exactly the batch keyed by
(identity, tag, dtype) over the listed array descriptors, in order. -/
theorem register_all_ok (u : Option String) (fl : List (String × Value)) :
    ∀ (l : List BaseAttribute) (b : List (Option String × String × Value × Dtype)),
      Olio.register_all u fl l = Except.ok b →
      b = l.map (fun a => (u, a.tag, (alist_get fl a.key).getD Value.vNone, a.dtype)) := by
  intro l
  induction l with
  | nil =>
    intro b h
    simp only [Olio.register_all, Except.ok.injEq] at h
    simp [h.symm]
  | cons a rest ih =>
    intro b h
    unfold Olio.register_all at h
    cases hg : alist_get fl a.key with
    | none => rw [hg] at h; simp at h
    | some arr =>
      rw [hg] at h
      cases hr : Olio.register_all u fl rest with
      | error e => rw [hr] at h; simp at h
      | ok lb =>
        rw [hr] at h
        simp only [Except.ok.injEq] at h
        rw [h.symm, ih lb hr]
        simp [hg]

/-- `register_all` fails only with the `getattr` AttributeError. -/
theorem register_all_err (u : Option String) (fl : List (String × Value)) :
    ∀ (l : List BaseAttribute) (e : PyErr),
      Olio.register_all u fl l = Except.error e → e = PyErr.attributeError := by
  intro l
  induction l with
  | nil => intro e h; simp [Olio.register_all] at h
  | cons a rest ih =>
    intro e h
    unfold Olio.register_all at h
    cases hg : alist_get fl a.key with
    | none =>
      rw [hg] at h
      simp only [Except.error.injEq] at h
      exact h.symm
    | some arr =>
      rw [hg] at h
      cases hr : Olio.register_all u fl rest with
      | error e2 =>
        rw [hr] at h
        simp only [Except.error.injEq] at h
        exact h ▸ ih e2 hr
      | ok lb => rw [hr] at h; simp at h

/-- Claim C7: `write_hdf5` fails with NoArraysDeclared exactly when the
type declares no Array-variant descriptors; otherwise it registers every
declared array attribute's in-memory value into one batch keyed by
(identity, tag, dtype), in declaration order, and issues exactly one write
with the given file and mode. -/
theorem c7_write_hdf5 (attrs : List Attr) (obj : Obj) (f : Option String)
    (m : String) :
    ((∃ msg, Olio.BaseResqml.write_hdf5 attrs obj f m =
        Except.error (PyErr.valueError msg)) ↔
      ∀ x ∈ attrs, Attr.hdfPart x = none) ∧
    (∀ batch rest, Olio.BaseResqml.write_hdf5 attrs obj f m =
        Except.ok (batch, rest) →
      rest = (f, m) ∧
      batch = (attrs.filterMap Attr.hdfPart).map
        (fun a => (obj.uuid, a.tag,
          (alist_get obj.fields a.key).getD Value.vNone, a.dtype))) := by
  unfold Olio.BaseResqml.write_hdf5
  by_cases hnil : attrs.filterMap Attr.hdfPart = []
  · rw [hnil]
    refine ⟨iff_of_true ⟨_, rfl⟩ ?_, ?_⟩
    · exact fun x hx => List.filterMap_eq_nil_iff.mp hnil x hx
    · intro batch rest h
      simp at h
  · have hlen : ¬((attrs.filterMap Attr.hdfPart).length = 0) := by
      simpa [List.length_eq_zero] using hnil
    simp only [hlen, if_false]
    cases hr : Olio.register_all obj.uuid obj.fields (attrs.filterMap Attr.hdfPart) with
    | error e =>
      refine ⟨iff_of_false ?_ ?_, ?_⟩
      · rintro ⟨msg, hmsg⟩
        rw [register_all_err obj.uuid obj.fields _ e hr] at hmsg
        simp at hmsg
      · intro hall
        exact hnil (List.filterMap_eq_nil_iff.mpr hall)
      · intro batch rest h
        simp at h
    | ok b =>
      refine ⟨iff_of_false (by simp) ?_, ?_⟩
      · intro hall
        exact hnil (List.filterMap_eq_nil_iff.mpr hall)
      · intro batch rest h
        simp only [Except.ok.injEq, Prod.mk.injEq] at h
        refine ⟨h.2.symm, ?_⟩
        rw [h.1.symm, register_all_ok obj.uuid obj.fields _ b hr]

/-- Witness for C7: a type with only a tree descriptor fails with
NoArraysDeclared; a type with one array descriptor yields the singleton
batch and the single write with the given mode. -/
theorem c7_write_hdf5_witness :
    (∃ msg, Olio.BaseResqml.write_hdf5 [Attr.xmlAttr aH7] objH7 none "a" =
      Except.error (PyErr.valueError msg)) ∧
    (((none : Option String), "a") = ((none : Option String), "a") ∧
      [((some "u2" : Option String), "Data", Value.vInt 3, Dtype.dint)] =
        ([Attr.hdfAttr aH7].filterMap Attr.hdfPart).map
          (fun a => (objH7.uuid, a.tag,
            (alist_get objH7.fields a.key).getD Value.vNone, a.dtype))) :=
  ⟨(c7_write_hdf5 [Attr.xmlAttr aH7] objH7 none "a").1.mpr
      (by intro x hx; simp only [List.mem_singleton] at hx; rw [hx]; rfl),
   (c7_write_hdf5 [Attr.hdfAttr aH7] objH7 none "a").2
      [((some "u2" : Option String), "Data", Value.vInt 3, Dtype.dint)]
      ((none : Option String), "a") rfl⟩

/-- Witness for the amended C4: the olio nested-write failure and the base
revision's silent pass at the same concrete descriptor. -/
theorem c4_amended_witness :
    Olio.XmlAttribute.write_xml a4c node0 fields0 =
      Except.error
        (PyErr.notImplementedError
          "XmlAttribute cannot currently write nested attributes") ∧
    RBase.XmlAttribute.write a4c node0 fields0 = Except.ok node0 :=
  ⟨(c4_amended a4c node0 fields0).1 rfl rfl,
   (c4_amended a4c node0 fields0).2 rfl⟩

/-- Claim C5: `create_xml` fails with IdentityMissing (the identity
assertion) when the uuid is unset at call time; when it is set, it
allocates a new tree node carrying the object's uuid as its identity
attribute, writes the citation block using the passed title/originator or
falling back to the held values, and runs every declared descriptor's write
in declaration order (one encoded child per descriptor, in order, whenever
the writes succeed). -/
theorem c5_create_xml (attrs : List Attr) (r : String) (obj : Obj)
    (t o e : Option String) :
    (obj.uuid = none →
      Olio.BaseResqml.create_xml attrs r obj t o e =
        Except.error PyErr.assertionError) ∧
    (∀ u, obj.uuid = some u →
      (∀ obj2 node2,
        Olio.BaseResqml.create_xml attrs r obj t o e = Except.ok (obj2, node2) →
        obj2.uuid = some u ∧
        obj2.title = (if pyTruthy t then t else obj.title) ∧
        obj2.originator = (if pyTruthy o then o else obj.originator) ∧
        alist_get node2.attrib "uuid" = some u ∧
        node2.children.head? = some (Olio.citation_node
          (if pyTruthy t then t else obj.title)
          (if pyTruthy o then o else obj.originator))) ∧
      ((∀ x ∈ attrs, good_xml_attr obj.fields x) →
        Olio.BaseResqml.create_xml attrs r obj t o e =
          Except.ok
            ({ obj with uuid := some u,
                        title := if pyTruthy t then t else obj.title,
                        originator := if pyTruthy o then o else obj.originator },
             { tag := r, attrib := [("uuid", u)], text := none,
               children := Olio.citation_node
                   (if pyTruthy t then t else obj.title)
                   (if pyTruthy o then o else obj.originator)
                 :: attrs.map (xml_child obj.fields) }))) := by
  refine ⟨fun hu => create_xml_none attrs r obj hu t o e, fun u hu => ⟨?_, ?_⟩⟩
  · intro obj2 node2 h
    obtain ⟨h1, h2⟩ := create_xml_ok_dest attrs r obj u hu t o e (obj2, node2) h
    obtain ⟨hsh1, hsh2, hsh3, ext, hch⟩ :=
      write_attrs_shape obj.fields (some u) attrs _ node2 h2
    have ho : obj2 = ({ obj with uuid := some u, title := (if pyTruthy t then t else obj.title), originator := (if pyTruthy o then o else obj.originator) } : Obj) := h1
    refine ⟨by rw [ho], by rw [ho], by rw [ho], ?_, ?_⟩
    · rw [hsh2]
      rfl
    · rw [hch]
      rfl
  · intro hgood
    rw [create_xml_some attrs r obj u hu t o e,
      write_attrs_good obj.fields (some u) attrs _ hgood]
    simp [Olio.create_citation, addChild]

/-- Witness for C5: materializing a concrete object with one boolean tree
descriptor yields the identity-bound node, the citation with the held
title, and the encoded child. -/
theorem c5_create_xml_witness :
    Olio.BaseResqml.create_xml [Attr.xmlAttr a8] "objT" objW none none none =
      Except.ok
        ({ uuid := some "u1", title := some "T0", originator := none,
           fields := [("flag", Value.vBool true)] },
         { tag := "objT", attrib := [("uuid", "u1")], text := none,
           children := [Olio.citation_node (some "T0") none,
                        { tag := "resqml2:IsSealed",
                          attrib := [("xsi:type", "xsd:boolean")],
                          text := some "true", children := [] }] }) := by
  have hgood : ∀ x ∈ [Attr.xmlAttr a8], good_xml_attr objW.fields x := by
    intro x hx
    simp only [List.mem_singleton] at hx
    subst hx
    exact ⟨rfl, rfl, ⟨Value.vBool true, rfl⟩, ⟨"xsd:", rfl⟩, ⟨"boolean", rfl⟩⟩
  exact ((c5_create_xml [Attr.xmlAttr a8] "objT" objW none none none).2 "u1"
    rfl).2 hgood

/-- Claim C8: a writeable boolean tree descriptor bound to the in-memory
true value writes a child whose text is exactly the lowercase string
`true`, and loading it back through the descriptor (dtype bool) binds the
true value again. -/
theorem c8_bool_roundtrip (a : BaseAttribute) (node : XmlNode)
    (fields : List (String × Value)) (nsv : String)
    (hw : a.writeable = true) (ht : a.xml_type = some "boolean")
    (hd : a.dtype = Dtype.dbool) (hs : has_slash a.tag = false)
    (hns : curly_namespace a.xml_ns = Except.ok nsv)
    (hv : alist_get fields a.key = some (Value.vBool true))
    (hfresh : find_child node a.tag = none) :
    ∃ n2 c, Olio.XmlAttribute.write_xml a node fields = Except.ok n2 ∧
      n2 = addChild node c ∧ c.text = some "true" ∧
      Olio.XmlAttribute.load a n2 fields =
        Except.ok (alist_set fields a.key (Value.vBool true)) := by
  have henc : encode_value a (Value.vBool true) = "true" := by
    unfold encode_value
    rw [ht]
    rfl
  have htext : (xml_child fields (Attr.xmlAttr a)).text = some "true" := by
    simp only [xml_child, hv, Option.getD_some, henc]
  have hfc : find_child (addChild node (xml_child fields (Attr.xmlAttr a))) a.tag =
      some (xml_child fields (Attr.xmlAttr a)) := by
    unfold find_child at hfresh ⊢
    simp only [addChild]
    rw [find_append_none _ node.children _ hfresh]
    rw [List.find?_cons_of_pos _ (by simp [xml_child, tag_matches])]
  have hfind : find_nested_tags_cast
      (addChild node (xml_child fields (Attr.xmlAttr a)))
      (tag_split a.tag) a.dtype = some (Value.vBool true) := by
    rw [tag_split_no_slash a.tag hs]
    simp only [find_nested_tags_cast, find_nested_node, hfc, htext, hd]
    rfl
  exact ⟨addChild node (xml_child fields (Attr.xmlAttr a)),
    xml_child fields (Attr.xmlAttr a),
    write_xml_good a node fields hw hs _ hv nsv hns _ ht, rfl, htext,
    by simp only [Olio.XmlAttribute.load, hfind]⟩

/-- Witness for C8: the concrete boolean descriptor round-trips through a
fresh node. -/
theorem c8_bool_roundtrip_witness :
    ∃ n2 c, Olio.XmlAttribute.write_xml a8 node0 fields8 = Except.ok n2 ∧
      n2 = addChild node0 c ∧ c.text = some "true" ∧
      Olio.XmlAttribute.load a8 n2 fields8 =
        Except.ok (alist_set fields8 a8.key (Value.vBool true)) :=
  c8_bool_roundtrip a8 node0 fields8 "xsd:" rfl rfl rfl rfl rfl rfl rfl

/-- Claim C9: assigning the olio `root` property with a node carrying no
derivable identity raises and leaves the uuid unchanged (the setter returns
before assigning); a successful assignment sets the uuid to the node's
derived identity, which is never null; and `create_xml` preserves a
non-null uuid. -/
theorem c9_root_setter (obj : Obj) (value : XmlNode) :
    (uuid_for_part_root value = none →
      Olio.BaseResqml.root_set obj value =
        Except.error (PyErr.valueError "Cannot set uuid to be None")) ∧
    (∀ u, uuid_for_part_root value = some u →
      Olio.BaseResqml.root_set obj value = Except.ok { obj with uuid := some u }) ∧
    (∀ obj2, Olio.BaseResqml.root_set obj value = Except.ok obj2 →
      obj2.uuid ≠ none) ∧
    (∀ attrs r t o e res, obj.uuid ≠ none →
      Olio.BaseResqml.create_xml attrs r obj t o e = Except.ok res →
      res.1.uuid = obj.uuid) := by
  refine ⟨?_, ?_, ?_, ?_⟩
  · intro h
    simp [Olio.BaseResqml.root_set, h]
  · intro u h
    simp [Olio.BaseResqml.root_set, h]
  · intro obj2 h
    unfold Olio.BaseResqml.root_set at h
    cases hr : uuid_for_part_root value with
    | none => rw [hr] at h; simp at h
    | some u =>
      rw [hr] at h
      simp only [Except.ok.injEq] at h
      rw [← h]
      simp
  · intro attrs r t o e res hne h
    cases hu : obj.uuid with
    | none => exact absurd hu hne
    | some u =>
      obtain ⟨h1, _⟩ := create_xml_ok_dest attrs r obj u hu t o e res h
      rw [h1]

/-- Witness for C9: the setter refuses a node without an identity and
derives the identity from a node that has one. -/
theorem c9_root_setter_witness :
    Olio.BaseResqml.root_set oN node0 =
      Except.error (PyErr.valueError "Cannot set uuid to be None") ∧
    Olio.BaseResqml.root_set oN nodeU = Except.ok { oN with uuid := some "u9" } :=
  ⟨(c9_root_setter oN node0).1 rfl, (c9_root_setter oN nodeU).2.1 "u9" rfl⟩

/-- Claim C10: in `create_xml` the fallback to the held title applies to
every falsy argument, not only an absent one: passing the empty string is
identical to passing no title, and the held title is kept. -/
theorem c10_falsy_title (attrs : List Attr) (r : String) (obj : Obj)
    (o e : Option String) :
    Olio.BaseResqml.create_xml attrs r obj (some "") o e =
      Olio.BaseResqml.create_xml attrs r obj none o e ∧
    (∀ res, Olio.BaseResqml.create_xml attrs r obj (some "") o e = Except.ok res →
      res.1.title = obj.title) := by
  constructor
  · cases hu : obj.uuid with
    | none =>
      rw [create_xml_none attrs r obj hu (some "") o e,
        create_xml_none attrs r obj hu none o e]
    | some u =>
      rw [create_xml_some attrs r obj u hu (some "") o e,
        create_xml_some attrs r obj u hu none o e]
      rfl
  · intro res h
    cases hu : obj.uuid with
    | none =>
      rw [create_xml_none attrs r obj hu (some "") o e] at h
      simp at h
    | some u =>
      obtain ⟨h1, _⟩ := create_xml_ok_dest attrs r obj u hu (some "") o e res h
      rw [h1]
      rfl

/-- Witness for C10: the concrete empty-string and no-title calls coincide
and keep the held title. -/
theorem c10_falsy_title_witness :
    Olio.BaseResqml.create_xml [] "objT" objW (some "") none none =
      Olio.BaseResqml.create_xml [] "objT" objW none none none ∧
    (({ uuid := some "u1", title := some "T0", originator := none,
        fields := [("flag", Value.vBool true)] } : Obj),
      ({ tag := "objT", attrib := [("uuid", "u1")], text := none,
         children := [Olio.citation_node (some "T0") none] } : XmlNode)).1.title =
      objW.title :=
  ⟨(c10_falsy_title [] "objT" objW none none).1,
   (c10_falsy_title [] "objT" objW none none).2
     ({ uuid := some "u1", title := some "T0", originator := none,
        fields := [("flag", Value.vBool true)] },
      { tag := "objT", attrib := [("uuid", "u1")], text := none,
        children := [Olio.citation_node (some "T0") none] }) rfl⟩

end Resqpy
